import Mathlib

/-
Verification of the WeChat image-upload workflow script
(weixin_image_upload_workflow.py).

The script is a linear driver: fetch an access token, then for at most the
first three image files of a local directory, upload the image twice
(permanent material, inline content image) and submit a draft article.
All remote interaction is HTTP plus JSON; we embed the JSON bodies and the
observable outcome of each HTTP call, and model each Python function as a
Lean function from that outcome to its returned value.  Exceptions that a
function catches become ordinary return values; exceptions it does not
catch become an explicit "raised" result that propagates to the driver.
-/

set_option autoImplicit false

namespace Weixin

/-- JSON values as they appear in the parsed API responses.  Numbers are
modelled as integers (the API status codes and identifiers in play are
integral); objects are association lists of distinct keys, matching a
parsed Python dict. -/
inductive Json where
  | null
  | str (s : String)
  | num (n : Int)
  | arr (elems : List Json)
  | obj (fields : List (String × Json))

/-- Python dict lookup, dict.get(k): the value stored under the key, if
present.  Keys of a parsed JSON object are distinct, so first match
suffices. -/
def lookupField (k : String) : List (String × Json) → Option Json
  | [] => none
  | (k₁, v) :: rest => if k₁ == k then some v else lookupField k rest

/-- Python membership test on a dict, "k in data". -/
def hasKey (k : String) (fs : List (String × Json)) : Bool :=
  (lookupField k fs).isSome

/-- Python truthiness of a JSON value: None, the empty string, zero and
empty containers are falsy. -/
def Json.truthy : Json → Bool
  | .null => false
  | .str s => !s.isEmpty
  | .num n => n != 0
  | .arr elems => !elems.isEmpty
  | .obj fields => !fields.isEmpty

/-- Python truthiness of an optional value, where "none" stands for the
Python None produced by dict.get on a missing key or by a function
returning None. -/
def pyTruthy : Option Json → Bool
  | none => false
  | some v => v.truthy

/-- The Python comparison "x == 0" applied to the result of
data.get(k): true exactly for the integer zero (None compares unequal
to 0). -/
def pyEqZeroOpt : Option Json → Bool
  | some (.num 0) => true
  | _ => false

/-- Observable outcome of the token request in get_access_token.  The
try block wraps requests.get, raise_for_status and response.json, so the
three exception outcomes are distinguished from a parsed JSON object
body.  netErr covers a connection failure, timeoutErr the 10 second
timeout, httpErr an HTTP error status (raise_for_status raising), and
jsonErr a body that is not valid JSON. -/
inductive TokenResp where
  | netErr
  | timeoutErr
  | httpErr
  | jsonErr
  | body (fields : List (String × Json))

/-- get_access_token, lines 32 to 63 of the source: every exception in the
try block is caught and yields None; a body with an errcode key yields
None; a body without access_token yields None; otherwise the value stored
under access_token is returned. -/
def get_access_token : TokenResp → Option Json
  | .netErr => none
  | .timeoutErr => none
  | .httpErr => none
  | .jsonErr => none
  | .body fs =>
    if hasKey "errcode" fs then none
    else
      match lookupField "access_token" fs with
      | none => none
      | some v => some v

/-- Observable outcome of one upload attempt (upload_permanent_image or
upload_content_image).  The functions contain no try block: openErr is
open(image_path) raising, postErr is requests.post raising, jsonErr is
response.json raising; body is a parsed JSON object. -/
inductive UploadResp where
  | openErr
  | postErr
  | jsonErr
  | body (fields : List (String × Json))

/-- Result of running a Python function that may let an exception escape:
either the exception propagates to the caller, or a value is returned,
with "ret none" standing for a returned None. -/
inductive PyResult where
  | raised
  | ret (v : Option Json)

/-- upload_permanent_image, lines 65 to 80 of the source: with no
try/except, an open, post or json failure propagates; from a parsed body
the function returns result of media_id lookup when the key is present and
None otherwise. -/
def upload_permanent_image : UploadResp → PyResult
  | .openErr => .raised
  | .postErr => .raised
  | .jsonErr => .raised
  | .body fs => .ret (lookupField "media_id" fs)

/-- upload_content_image, lines 82 to 97 of the source: identical shape to
upload_permanent_image but the expected response field is url. -/
def upload_content_image : UploadResp → PyResult
  | .openErr => .raised
  | .postErr => .raised
  | .jsonErr => .raised
  | .body fs => .ret (lookupField "url" fs)

/-- Observable outcome of the draft submission in create_draft_with_image.
The try block wraps requests.post and response.json, so both exception
outcomes are caught; body is a parsed JSON object. -/
inductive DraftResp where
  | reqErr
  | jsonErr
  | body (fields : List (String × Json))

/-- create_draft_with_image, lines 99 to 164 of the source, reduced to its
success predicate (the function returns True on success and None
otherwise; the request payload parameters do not influence this logic).
From a parsed body: if data.get media_id is truthy, success; otherwise if
data.get errcode compares equal to 0, success; otherwise failure.  A
caught exception is failure. -/
def create_draft_with_image : DraftResp → Bool
  | .reqErr => false
  | .jsonErr => false
  | .body fs =>
    if pyTruthy (lookupField "media_id" fs) then true
    else if pyEqZeroOpt (lookupField "errcode" fs) then true
    else false

/-- The recognised image extensions of the driver (line 178 of the
source). -/
def EXTS : List String := [".jpg", ".jpeg", ".png", ".gif", ".bmp"]

/-- Index of the last dot of a character list, as Python str.rfind of a
dot: the largest index holding a dot, if any. -/
def rfindDot (cs : List Char) : Option Nat :=
  (List.range cs.length).reverse.find? (fun i => cs.getD i ' ' == '.')

/-- Python str.lower restricted to ASCII, which covers every recognised
extension: lower-case each character. -/
def toLowerAscii (s : String) : String :=
  String.mk (s.toList.map Char.toLower)

/-- pathlib Path.suffix of a file name: the substring from the last dot
on, provided that dot is neither the first nor the last character;
otherwise the empty string. -/
def pySuffix (name : String) : String :=
  let cs := name.toList
  match rfindDot cs with
  | none => ""
  | some i => if 0 < i && i + 1 < cs.length then String.mk (cs.drop i) else ""

/-- The driver filter of line 177 to 178: a directory entry qualifies as
an image when the lower-cased suffix is one of the recognised
extensions. -/
def isImageFile (name : String) : Bool :=
  EXTS.contains (toLowerAscii (pySuffix name))

/-- The network calls the script can make, in the order main can emit
them; each upload or draft event records the file being processed. -/
inductive Event where
  | tokenCall
  | permUploadCall (file : String)
  | contentUploadCall (file : String)
  | draftCall (file : String)
  deriving DecidableEq

/-- How a run of main ends: a normal return, or an uncaught exception
escaping main (the process dies with a traceback). -/
inductive RunEnd where
  | finished
  | crashed
  deriving DecidableEq

/-- The environment of one run: whether the img directory exists, its
entries in enumeration order (file names, as iterdir yields them), and
the outcome the remote side produces for each call the script could
make. -/
structure Env where
  dirExists : Bool
  entries : List String
  tokenResp : TokenResp
  permResp : String → UploadResp
  contentResp : String → UploadResp
  draftResp : String → DraftResp

/-- The per-image loop of main, lines 193 to 219 of the source, as a
trace of network calls plus the way the loop ends.  For each file: the
permanent upload runs first; a raised exception kills the run; a falsy
result (None, or a falsy media_id) skips to the next file; otherwise the
content upload runs under the same rules; otherwise the draft call runs
and the loop always continues (its result is only logged). -/
def processFiles (env : Env) : List String → List Event × RunEnd
  | [] => ([], .finished)
  | f :: rest =>
    match upload_permanent_image (env.permResp f) with
    | .raised => ([.permUploadCall f], .crashed)
    | .ret thumb =>
      if !pyTruthy thumb then
        let r := processFiles env rest
        (.permUploadCall f :: r.1, r.2)
      else
        match upload_content_image (env.contentResp f) with
        | .raised => ([.permUploadCall f, .contentUploadCall f], .crashed)
        | .ret url =>
          if !pyTruthy url then
            let r := processFiles env rest
            (.permUploadCall f :: .contentUploadCall f :: r.1, r.2)
          else
            let r := processFiles env rest
            (.permUploadCall f :: .contentUploadCall f :: .draftCall f :: r.1,
             r.2)

/-- main, lines 166 to 223 of the source: return at once when the
directory is missing or holds no qualifying image; otherwise fetch one
token, return if it is falsy, and otherwise run the per-image loop over
the first three qualifying entries. -/
def main (env : Env) : List Event × RunEnd :=
  if !env.dirExists then ([], .finished)
  else
    let image_files := env.entries.filter isImageFile
    if image_files.isEmpty then ([], .finished)
    else
      if !pyTruthy (get_access_token env.tokenResp) then
        ([Event.tokenCall], .finished)
      else
        let r := processFiles env (image_files.take 3)
        (Event.tokenCall :: r.1, r.2)

/-- The files a trace shows as processed: those whose permanent upload
(the first step of the per-image chain) was attempted. -/
def processedFiles (tr : List Event) : List String :=
  tr.filterMap fun e =>
    match e with
    | .permUploadCall f => some f
    | _ => none

/-- The success predicate exactly as claim C1 words it: a truthy media_id
value, or no media_id key at all together with an errcode equal to 0. -/
def claimedDraftSuccess (fs : List (String × Json)) : Bool :=
  pyTruthy (lookupField "media_id" fs) ||
    (!hasKey "media_id" fs && pyEqZeroOpt (lookupField "errcode" fs))

/-- The amended success predicate: a truthy media_id value, or an errcode
equal to 0; the errcode branch is reached whenever media_id is absent or
falsy, not only when the key is absent. -/
def amendedDraftSuccess (fs : List (String × Json)) : Bool :=
  pyTruthy (lookupField "media_id" fs) || pyEqZeroOpt (lookupField "errcode" fs)

/-- Claim C1, counterexample: on the body with media_id set to the empty
string and errcode 0, the code declares success, while the predicate the
claim describes (errcode consulted only when the media_id key is absent)
declares failure. -/
theorem claim_C1_counterexample :
    create_draft_with_image
        (.body [("media_id", Json.str ""), ("errcode", Json.num 0)]) = true ∧
    claimedDraftSuccess [("media_id", Json.str ""), ("errcode", Json.num 0)] = false := by
  exact ⟨rfl, rfl⟩

/-- Claim C1 (amended): create_draft_with_image succeeds exactly when the
response carries a truthy media_id, or carries an errcode equal to 0 when
the media_id value is absent or falsy; in particular it succeeds on a
body with any non-empty media_id string, succeeds on errcode 0 alone, and
fails on errcode 40001. -/
theorem claim_C1_amended :
    (∀ fs, create_draft_with_image (.body fs) = amendedDraftSuccess fs) ∧
    (∀ s, s ≠ "" →
        create_draft_with_image (.body [("media_id", Json.str s)]) = true) ∧
    create_draft_with_image (.body [("errcode", Json.num 0)]) = true ∧
    create_draft_with_image
        (.body [("errcode", Json.num 40001), ("errmsg", Json.str "bad")]) = false := by
  refine ⟨?_, ?_, rfl, rfl⟩
  · intro fs
    cases h : pyTruthy (lookupField "media_id" fs) <;>
      simp [create_draft_with_image, amendedDraftSuccess, h]
  · intro s hs
    have he : s.isEmpty = false := by
      cases h : s.isEmpty
      · rfl
      · exact absurd ((String.isEmpty_iff s).mp h) hs
    simp [create_draft_with_image, lookupField, pyTruthy, Json.truthy, he]

/-- Claim C1, witness for the amended statement at the concrete body with
media_id "X". -/
theorem claim_C1_witness :
    create_draft_with_image (.body [("media_id", Json.str "X")]) = true :=
  claim_C1_amended.2.1 "X" (by decide)

/-- Claim C9: a truthy media_id makes the draft call a success regardless
of any errcode in the same body; when media_id is absent or falsy, the
result is exactly the errcode comparison with 0; in particular media_id
"M" with errcode 40001 is success, and an empty media_id with no errcode
is failure. -/
theorem claim_C9_media_id_priority :
    (∀ fs, pyTruthy (lookupField "media_id" fs) = true →
        create_draft_with_image (.body fs) = true) ∧
    (∀ fs, pyTruthy (lookupField "media_id" fs) = false →
        create_draft_with_image (.body fs) = pyEqZeroOpt (lookupField "errcode" fs)) ∧
    create_draft_with_image
        (.body [("media_id", Json.str "M"), ("errcode", Json.num 40001)]) = true ∧
    create_draft_with_image (.body [("media_id", Json.str "")]) = false := by
  refine ⟨?_, ?_, rfl, rfl⟩
  · intro fs h
    simp [create_draft_with_image, h]
  · intro fs h
    cases he : pyEqZeroOpt (lookupField "errcode" fs) <;>
      simp [create_draft_with_image, h, he]

/-- Claim C9, witness at a body carrying both a truthy media_id and a
non-zero errcode. -/
theorem claim_C9_witness :
    create_draft_with_image
        (.body [("media_id", Json.str "A"), ("errcode", Json.num 45009)]) = true :=
  claim_C9_media_id_priority.1 [("media_id", Json.str "A"), ("errcode", Json.num 45009)] rfl

/-- Claim C8: the mere presence of an errcode key makes get_access_token
return None, even with errcode 0 and a valid access_token in the same
body. -/
theorem claim_C8_errcode_presence :
    (∀ fs, hasKey "errcode" fs = true → get_access_token (.body fs) = none) ∧
    get_access_token
        (.body [("errcode", Json.num 0), ("access_token", Json.str "TOKEN")]) = none := by
  refine ⟨?_, rfl⟩
  intro fs h
  simp [get_access_token, h]

/-- Claim C8, witness at a body holding errcode 0 next to an
access_token. -/
theorem claim_C8_witness :
    get_access_token
        (.body [("errcode", Json.num 0), ("access_token", Json.str "T2")]) = none :=
  claim_C8_errcode_presence.1 [("errcode", Json.num 0), ("access_token", Json.str "T2")] rfl

/-- Claim C6: get_access_token returns the stored token value from a body
with no errcode key, and returns None on a network error, a timeout, an
HTTP error status, a non-JSON body, or a body with an errcode key. -/
theorem claim_C6_token_cases :
    (∀ fs v, hasKey "errcode" fs = false → lookupField "access_token" fs = some v →
        get_access_token (.body fs) = some v) ∧
    get_access_token .netErr = none ∧
    get_access_token .timeoutErr = none ∧
    get_access_token .httpErr = none ∧
    get_access_token .jsonErr = none ∧
    (∀ fs, hasKey "errcode" fs = true → get_access_token (.body fs) = none) := by
  refine ⟨?_, rfl, rfl, rfl, rfl, ?_⟩
  · intro fs v herr htok
    simp [get_access_token, herr, htok]
  · intro fs h
    simp [get_access_token, h]

/-- Claim C6, witness at the body holding only an access_token. -/
theorem claim_C6_witness :
    get_access_token (.body [("access_token", Json.str "ACCESS")]) =
      some (Json.str "ACCESS") :=
  claim_C6_token_cases.1 [("access_token", Json.str "ACCESS")] (Json.str "ACCESS") rfl rfl

/-- The image filter exactly as claim C10 words it: a file qualifies when
lower-casing its suffix yields one of the five extensions. -/
def claimedImageFilter (name : String) : Bool :=
  decide (toLowerAscii (pySuffix name) ∈ EXTS)

/-- Claim C10: the driver filter agrees everywhere with the case
insensitive membership test the claim describes; in particular upper and
mixed case suffixes qualify and a non-image extension does not. -/
theorem claim_C10_case_insensitive :
    (∀ name, isImageFile name = claimedImageFilter name) ∧
    isImageFile "photo.JPG" = true ∧
    isImageFile "photo.Png" = true ∧
    isImageFile "photo.GIF" = true ∧
    isImageFile "photo.jpeg" = true ∧
    isImageFile "notes.txt" = false := by
  refine ⟨?_, by decide, by decide, by decide, by decide, by decide⟩
  intro name
  unfold isImageFile claimedImageFilter
  by_cases h : toLowerAscii (pySuffix name) ∈ EXTS <;> simp [h]

/-- Every file mentioned by a permanent-upload event of the loop trace is
one of the files the loop was given. -/
theorem processedFiles_mem (env : Env) (l : List String) :
    ∀ f, f ∈ processedFiles (processFiles env l).1 → f ∈ l := by
  induction l with
  | nil =>
    intro f hf
    simp [processFiles, processedFiles] at hf
  | cons g rest ih =>
    intro f hf
    cases hup : upload_permanent_image (env.permResp g) with
    | raised =>
      simp [processFiles, hup, processedFiles] at hf
      simp [hf]
    | ret thumb =>
      by_cases ht : pyTruthy thumb
      · cases hc : upload_content_image (env.contentResp g) with
        | raised =>
          simp [processFiles, hup, hc, ht, processedFiles] at hf
          simp [hf]
        | ret url =>
          by_cases hu : pyTruthy url
          · simp [processFiles, hup, hc, ht, hu, processedFiles] at hf
            rcases hf with hf | hf
            · simp [hf]
            · exact List.mem_cons_of_mem _ (ih f (by simpa [processedFiles] using hf))
          · simp [processFiles, hup, hc, ht, hu, processedFiles] at hf
            rcases hf with hf | hf
            · simp [hf]
            · exact List.mem_cons_of_mem _ (ih f (by simpa [processedFiles] using hf))
      · simp [processFiles, hup, ht, processedFiles] at hf
        rcases hf with hf | hf
        · simp [hf]
        · exact List.mem_cons_of_mem _ (ih f (by simpa [processedFiles] using hf))

/-- When no upload response makes the loop raise, every given file gets
its permanent-upload attempt, in the given order. -/
theorem processedFiles_eq_of_no_raise (env : Env) (l : List String)
    (hperm : ∀ f, upload_permanent_image (env.permResp f) ≠ .raised)
    (hcont : ∀ f, upload_content_image (env.contentResp f) ≠ .raised) :
    processedFiles (processFiles env l).1 = l := by
  induction l with
  | nil => simp [processFiles, processedFiles]
  | cons g rest ih =>
    cases hup : upload_permanent_image (env.permResp g) with
    | raised => exact absurd hup (hperm g)
    | ret thumb =>
      by_cases ht : pyTruthy thumb
      · cases hc : upload_content_image (env.contentResp g) with
        | raised => exact absurd hc (hcont g)
        | ret url =>
          by_cases hu : pyTruthy url <;>
          · simp [processFiles, hup, hc, ht, hu, processedFiles]
            simpa [processedFiles] using ih
      · simp [processFiles, hup, ht, processedFiles]
        simpa [processedFiles] using ih

/-- When the run reaches the per-image loop, main is the token call
followed by the loop over the first three qualifying entries. -/
theorem main_loop_eq (env : Env)
    (hdir : env.dirExists = true)
    (himg : (env.entries.filter isImageFile).isEmpty = false)
    (htok : pyTruthy (get_access_token env.tokenResp) = true) :
    main env =
      (Event.tokenCall ::
        (processFiles env ((env.entries.filter isImageFile).take 3)).1,
       (processFiles env ((env.entries.filter isImageFile).take 3)).2) := by
  simp [main, hdir, himg, htok]

/-- Claim C3: with no qualifying image among the directory entries, main
returns at once with an empty call trace, so no token fetch, upload or
draft submission happens. -/
theorem claim_C3_no_images_no_network (env : Env)
    (h : env.entries.filter isImageFile = []) :
    main env = ([], .finished) := by
  cases hd : env.dirExists <;> simp [main, hd, h]

/-- Claim C3, witness: a directory holding only non-image files produces
the empty trace. -/
theorem claim_C3_witness :
    main { dirExists := true, entries := ["notes.txt", "README.md"],
           tokenResp := .jsonErr, permResp := fun _ => .jsonErr,
           contentResp := fun _ => .jsonErr, draftResp := fun _ => .jsonErr }
      = ([], .finished) :=
  claim_C3_no_images_no_network _ (by decide)

/-- Claim C4: a token body with an errcode key yields no token, and the
run ends normally with at most the token call in its trace, so no upload
or draft step runs for any image. -/
theorem claim_C4_token_error_stops (env : Env) (fs : List (String × Json))
    (hresp : env.tokenResp = .body fs) (herr : hasKey "errcode" fs = true) :
    get_access_token env.tokenResp = none ∧
    (main env).2 = .finished ∧
    ((main env).1 = [] ∨ (main env).1 = [Event.tokenCall]) := by
  have htok : get_access_token env.tokenResp = none := by
    simp [hresp, get_access_token, herr]
  refine ⟨htok, ?_, ?_⟩ <;>
  · cases hd : env.dirExists
    · simp [main, hd]
    · by_cases himg : (env.entries.filter isImageFile).isEmpty <;>
        simp [main, hd, himg, htok, pyTruthy]

/-- Environment for the claim C4 witness: two qualifying images, and a
token endpoint answering with the expired-credential error code. -/
def envC4 : Env :=
  { dirExists := true, entries := ["a.jpg", "b.png"],
    tokenResp := .body [("errcode", Json.num 40001), ("errmsg", Json.str "invalid")],
    permResp := fun _ => .body [("media_id", Json.str "m")],
    contentResp := fun _ => .body [("url", Json.str "u")],
    draftResp := fun _ => .body [("media_id", Json.str "d")] }

/-- Claim C4, witness at envC4. -/
theorem claim_C4_witness :
    get_access_token envC4.tokenResp = none ∧
    (main envC4).2 = .finished ∧
    ((main envC4).1 = [] ∨ (main envC4).1 = [Event.tokenCall]) :=
  claim_C4_token_error_stops envC4
    [("errcode", Json.num 40001), ("errmsg", Json.str "invalid")] rfl rfl

/-- Claim C5: in a run that reaches the loop (directory present, truthy
token) and in which no upload response makes the loop raise, the files
whose processing is attempted are exactly the first three qualifying
entries, in enumeration order; and in every run whatsoever, only files
among the first three qualifying entries are ever attempted. -/
theorem claim_C5_first_three (env : Env)
    (hdir : env.dirExists = true)
    (htok : pyTruthy (get_access_token env.tokenResp) = true)
    (hperm : ∀ f, upload_permanent_image (env.permResp f) ≠ .raised)
    (hcont : ∀ f, upload_content_image (env.contentResp f) ≠ .raised) :
    processedFiles (main env).1 = (env.entries.filter isImageFile).take 3 ∧
    (∀ env₁ : Env, ∀ f, f ∈ processedFiles (main env₁).1 →
        f ∈ (env₁.entries.filter isImageFile).take 3) := by
  constructor
  · by_cases himg : (env.entries.filter isImageFile).isEmpty
    · have h0 : env.entries.filter isImageFile = [] := List.isEmpty_iff.mp himg
      simp [main, hdir, himg, processedFiles, h0]
    · rw [main_loop_eq env hdir (by simpa using himg) htok]
      have h := processedFiles_eq_of_no_raise env
        ((env.entries.filter isImageFile).take 3) hperm hcont
      simpa [processedFiles] using h
  · intro env₁ f hf
    cases hd : env₁.dirExists
    · simp [main, hd, processedFiles] at hf
    · by_cases himg : (env₁.entries.filter isImageFile).isEmpty
      · simp [main, hd, himg, processedFiles] at hf
      · by_cases htok₁ : pyTruthy (get_access_token env₁.tokenResp)
        · rw [main_loop_eq env₁ hd (by simpa using himg) htok₁] at hf
          exact processedFiles_mem env₁ _ f (by simpa [processedFiles] using hf)
        · simp [main, hd, himg, htok₁, processedFiles] at hf

/-- Environment for the claim C5 witness: four qualifying images and
uniformly successful responses. -/
def envC5 : Env :=
  { dirExists := true, entries := ["a.jpg", "b.jpg", "c.jpg", "d.jpg"],
    tokenResp := .body [("access_token", Json.str "T")],
    permResp := fun _ => .body [("media_id", Json.str "m")],
    contentResp := fun _ => .body [("url", Json.str "u")],
    draftResp := fun _ => .body [("media_id", Json.str "d")] }

/-- Claim C5, witness: of four images only the first three are processed,
in order. -/
theorem claim_C5_witness :
    processedFiles (main envC5).1 = ["a.jpg", "b.jpg", "c.jpg"] :=
  ((claim_C5_first_three envC5 rfl (by decide)
      (fun _ h => nomatch h) (fun _ h => nomatch h)).1).trans (by decide)

/-- Claim C7: when the permanent-upload response for a file lacks
media_id, the loop emits only that upload call for the file and
continues with the remaining files unchanged; when the content-upload
response lacks url, the loop emits the two upload calls and likewise
continues; and the processing of any next file always begins with its
permanent-upload call. -/
theorem claim_C7_missing_field_skips :
    (∀ (env : Env) (f : String) (rest : List String) (fs : List (String × Json)),
        env.permResp f = .body fs → hasKey "media_id" fs = false →
        processFiles env (f :: rest) =
          (Event.permUploadCall f :: (processFiles env rest).1,
           (processFiles env rest).2)) ∧
    (∀ (env : Env) (f : String) (rest : List String)
        (fs₁ fs₂ : List (String × Json)),
        env.permResp f = .body fs₁ →
        pyTruthy (lookupField "media_id" fs₁) = true →
        env.contentResp f = .body fs₂ → hasKey "url" fs₂ = false →
        processFiles env (f :: rest) =
          (Event.permUploadCall f :: Event.contentUploadCall f ::
             (processFiles env rest).1,
           (processFiles env rest).2)) ∧
    (∀ (env : Env) (g : String) (rest : List String),
        (processFiles env (g :: rest)).1.head? = some (Event.permUploadCall g)) := by
  refine ⟨?_, ?_, ?_⟩
  · intro env f rest fs hresp hkey
    cases hl : lookupField "media_id" fs with
    | some v => simp [hasKey, hl] at hkey
    | none => simp [processFiles, hresp, upload_permanent_image, hl, pyTruthy]
  · intro env f rest fs₁ fs₂ hresp₁ hthumb hresp₂ hkey
    cases hl : lookupField "url" fs₂ with
    | some v => simp [hasKey, hl] at hkey
    | none =>
      have hn : pyTruthy none = false := rfl
      simp [processFiles, hresp₁, hresp₂, upload_permanent_image,
        upload_content_image, hthumb, hl, hn]
  · intro env g rest
    cases hup : upload_permanent_image (env.permResp g) with
    | raised => simp [processFiles, hup]
    | ret thumb =>
      by_cases ht : pyTruthy thumb
      · cases hc : upload_content_image (env.contentResp g) with
        | raised => simp [processFiles, hup, hc, ht]
        | ret url =>
          by_cases hu : pyTruthy url <;> simp [processFiles, hup, hc, ht, hu]
      · simp [processFiles, hup, ht]

/-- Environment for the claim C7 witness: permanent uploads answer with
an error body lacking media_id. -/
def envC7 : Env :=
  { dirExists := true, entries := ["a.jpg", "b.jpg"],
    tokenResp := .body [("access_token", Json.str "T")],
    permResp := fun _ => .body [("errcode", Json.num 40007), ("errmsg", Json.str "invalid media type")],
    contentResp := fun _ => .body [("url", Json.str "u")],
    draftResp := fun _ => .body [("media_id", Json.str "d")] }

/-- Claim C7, witness: the first file is skipped after its failed
permanent upload and the loop still processes the second file. -/
theorem claim_C7_witness :
    processFiles envC7 ["a.jpg", "b.jpg"] =
      (Event.permUploadCall "a.jpg" :: (processFiles envC7 ["b.jpg"]).1,
       (processFiles envC7 ["b.jpg"]).2) :=
  claim_C7_missing_field_skips.1 envC7 "a.jpg" ["b.jpg"]
    [("errcode", Json.num 40007), ("errmsg", Json.str "invalid media type")] rfl rfl

/-- Environment for the claim C2 counterexample: the token succeeds and
the very first file fails to open for its permanent upload. -/
def envC2 : Env :=
  { dirExists := true, entries := ["a.jpg", "b.jpg"],
    tokenResp := .body [("access_token", Json.str "T")],
    permResp := fun _ => .openErr,
    contentResp := fun _ => .body [("url", Json.str "u")],
    draftResp := fun _ => .body [("media_id", Json.str "d")] }

/-- Claim C2, counterexample: a file that cannot be opened does not yield
a reported, non-fatal per-image failure; the exception escapes, the run
crashes, and the second image is never attempted. -/
theorem claim_C2_counterexample :
    (main envC2).2 = RunEnd.crashed ∧
    Event.permUploadCall "b.jpg" ∉ (main envC2).1 := by
  decide

/-- Claim C2 (amended): the upload functions signal a non-fatal failure
(returning None, upon which the driver skips to the next image) only when
a parsed response lacks the expected field; a file that cannot be opened,
a failing HTTP request or a non-JSON body raises an uncaught exception,
and such an exception in the loop terminates the whole run at that
image. -/
theorem claim_C2_amended :
    (∀ fs, hasKey "media_id" fs = false →
        upload_permanent_image (.body fs) = .ret none) ∧
    (∀ fs, hasKey "url" fs = false →
        upload_content_image (.body fs) = .ret none) ∧
    upload_permanent_image .openErr = .raised ∧
    upload_permanent_image .postErr = .raised ∧
    upload_permanent_image .jsonErr = .raised ∧
    upload_content_image .openErr = .raised ∧
    upload_content_image .postErr = .raised ∧
    upload_content_image .jsonErr = .raised ∧
    (∀ (env : Env) (f : String) (rest : List String),
        upload_permanent_image (env.permResp f) = .ret none →
        processFiles env (f :: rest) =
          (Event.permUploadCall f :: (processFiles env rest).1,
           (processFiles env rest).2)) ∧
    (∀ (env : Env) (f : String) (rest : List String),
        upload_permanent_image (env.permResp f) = .raised →
        processFiles env (f :: rest) = ([Event.permUploadCall f], RunEnd.crashed)) := by
  refine ⟨?_, ?_, rfl, rfl, rfl, rfl, rfl, rfl, ?_, ?_⟩
  · intro fs hkey
    cases hl : lookupField "media_id" fs with
    | some v => simp [hasKey, hl] at hkey
    | none => simp [upload_permanent_image, hl]
  · intro fs hkey
    cases hl : lookupField "url" fs with
    | some v => simp [hasKey, hl] at hkey
    | none => simp [upload_content_image, hl]
  · intro env f rest h
    simp [processFiles, h, pyTruthy]
  · intro env f rest h
    simp [processFiles, h]

/-- Claim C2, witness for the amended statement: a parsed body lacking
media_id makes the permanent upload return None rather than raise. -/
theorem claim_C2_witness :
    upload_permanent_image (.body [("errcode", Json.num 40004)]) = .ret none :=
  claim_C2_amended.1 [("errcode", Json.num 40004)] rfl

end Weixin
